import Mathlib

/-!
Verification development for the plugin-protocol event catalogue of this
repository (packages/plugin-protocol/src/types/events.ts).

The repository ships the protocol as TypeScript type declarations plus
consumer code; the declarations are embedded here as Lean structures and
inductives, keeping source names.  TypeScript structural interface types
are additionally embedded as decidable validators over a JSON value type,
so that required/optional field shape facts are checkable.  Behavioural
components that the specification describes but whose implementation is
not part of the shipped sources (the commit handler, the routing engine,
the lifecycle machine, the spark state progression) are modelled from the
specification text; each such definition carries a doc comment starting
with the words Modelled from the spec.
-/

namespace PluginProtocol

/-- JSON-like value, modelling the TypeScript value universe used by the
protocol types (unknown fields, Record of string to unknown payloads). -/
inductive Json where
  | null : Json
  | bool (b : Bool) : Json
  | num (n : Int) : Json
  | str (s : String) : Json
  | arr (items : List Json) : Json
  | obj (fields : List (String × Json)) : Json

/-- Record of string to unknown values (TypeScript Record of string to unknown). -/
abbrev RecordUnknown := List (String × Json)

/-- events.ts lines 18-34: PluginIdentity. Labels are modelled as an
association list standing for Record of string to string. -/
structure PluginIdentity where
  id : String
  version : Option String
  labels : Option (List (String × String))
deriving DecidableEq, Repr

/-- events.ts lines 36-55: the only supported module identity kind. -/
inductive ModuleIdentityKind where
  | plugin : ModuleIdentityKind
deriving DecidableEq, Repr

/-- events.ts lines 36-55: ModuleIdentity. -/
structure ModuleIdentity where
  id : String
  kind : ModuleIdentityKind
  plugin : PluginIdentity
  labels : Option (List (String × String))
deriving DecidableEq, Repr

/-- events.ts lines 70-78: ModuleConfigSchema. -/
structure ModuleConfigSchema where
  id : String
  version : Nat
  schema : Option RecordUnknown

/-- events.ts lines 90-110: ModuleDependency. -/
structure ModuleDependency where
  role : String
  optional : Option Bool
  version : Option String
  min : Option String
  max : Option String
  constraints : Option RecordUnknown

/-- events.ts lines 161-177: Localizable interpolation parameter values
(string or number or boolean). -/
inductive LocalizableParam where
  | str (s : String) : LocalizableParam
  | num (n : Int) : LocalizableParam
  | bool (b : Bool) : LocalizableParam
deriving DecidableEq, Repr

/-- events.ts lines 161-177: Localizable is either a plain string or a
localization key with optional fallback and params. -/
inductive Localizable where
  | text (s : String) : Localizable
  | keyed (key : String) (fallback : Option String)
      (params : Option (List (String × LocalizableParam))) : Localizable
deriving DecidableEq, Repr

/-- events.ts lines 179-205: ModuleConfigNotice. -/
structure ModuleConfigNotice where
  code : Option String
  message : Option Localizable
  path : Option String
  replacedBy : Option String
  since : Option Nat
  link : Option String
deriving DecidableEq, Repr

/-- events.ts lines 207-218: ModuleConfigStep. -/
structure ModuleConfigStep where
  code : Option String
  message : Option Localizable
  paths : Option (List String)
deriving DecidableEq, Repr

/-- A path together with a reason, as used by plan and validation invalid
field listings (events.ts lines 232 and 276, with differing reason types). -/
structure ConfigPathIssue (R : Type) where
  path : String
  reason : R
deriving DecidableEq, Repr

/-- events.ts lines 244-249: one suggested migration between schema versions. -/
structure ModuleConfigMigration where
  «from» : Nat
  «to» : Nat
  steps : Option (List (Sum String ModuleConfigStep))
  notes : Option (List (Sum String ModuleConfigNotice))
deriving DecidableEq, Repr

/-- events.ts lines 220-258: ModuleConfigPlan. -/
structure ModuleConfigPlan where
  schema : ModuleConfigSchema
  missing : Option (List String)
  invalid : Option (List (ConfigPathIssue String))
  defaults : Option RecordUnknown
  deprecated : Option (List (Sum String ModuleConfigNotice))
  migrations : Option (List ModuleConfigMigration)
  nextSteps : Option (List (Sum String ModuleConfigStep))
  warnings : Option (List (Sum String ModuleConfigNotice))

/-- events.ts line 268: the validation status literal union
(the literal strings are valid, partial, invalid). -/
inductive ModuleConfigValidationStatus where
  | valid : ModuleConfigValidationStatus
  | partialConfig : ModuleConfigValidationStatus
  | invalid : ModuleConfigValidationStatus
deriving DecidableEq, Repr

/-- events.ts lines 260-281: ModuleConfigValidation. -/
structure ModuleConfigValidation where
  status : ModuleConfigValidationStatus
  missing : Option (List String)
  invalid : Option (List (ConfigPathIssue Localizable))
  warnings : Option (List (Sum String ModuleConfigNotice))
deriving DecidableEq, Repr

/-- events.ts lines 294-320: ModuleConfigEnvelope, generic in the config
payload type C.  The TypeScript patch field has type Partial of C; the
payload is opaque to the protocol, so the patch payload is modelled by the
same opaque type parameter. -/
structure ModuleConfigEnvelope (C : Type) where
  configId : String
  revision : Nat
  schemaVersion : Nat
  source : Option ModuleIdentity
  full : Option C
  patch : Option C
  baseRevision : Option Nat
deriving DecidableEq, Repr

/-- events.ts lines 322-344: ModuleCapability. -/
structure ModuleCapability where
  id : String
  name : Option String
  description : Option Localizable
  configSchema : Option ModuleConfigSchema
  metadata : Option RecordUnknown

/-! ## Config commit (optimistic concurrency)

The responder that processes module:configuration:commit events is not part
of the shipped sources; it is modelled from the spec below. -/

/-- The responder's stored revision table: one stored revision per configId. -/
abbrev ConfigRevisionStore := List (String × Nat)

/-- Stored revision for a configId, if one was ever committed. -/
def lookupRevision (store : ConfigRevisionStore) (configId : String) : Option Nat :=
  (store.find? (fun p => p.1 == configId)).map (fun p => p.2)

/-- Replace the stored revision for a configId. -/
def setRevision (store : ConfigRevisionStore) (configId : String) (r : Nat) :
    ConfigRevisionStore :=
  store.map (fun p => if p.1 == configId then (p.1, r) else p)

/-- The envelope invariant stated by the spec: exactly one of full and patch
is the operative payload, and a patch payload requires baseRevision. -/
def wellFormedEnvelope {C : Type} (e : ModuleConfigEnvelope C) : Bool :=
  (e.full.isSome != e.patch.isSome) && (!e.patch.isSome || e.baseRevision.isSome)

/-- Outcome of processing one commit. -/
inductive CommitOutcome where
  | accepted : CommitOutcome
  | rejectedMalformedEnvelope : CommitOutcome
  | rejectedStaleBaseRevision : CommitOutcome
  | rejectedUnknownConfigId : CommitOutcome
deriving DecidableEq, Repr

/-- Modelled from the spec: the commit step of the config negotiation
sub-protocol (spec 4.2 step 3 and section 8).  The responder rejects a
malformed envelope shape before acting; a patch commit succeeds iff its
baseRevision equals the stored revision for that configId, and on success
the stored revision advances by exactly one; any rejection leaves the
store unchanged.  A full payload commit on a fresh configId installs the
envelope revision. -/
def commitConfig {C : Type} (store : ConfigRevisionStore)
    (e : ModuleConfigEnvelope C) : CommitOutcome × ConfigRevisionStore :=
  if wellFormedEnvelope e then
    match e.patch with
    | some _ =>
      match e.baseRevision, lookupRevision store e.configId with
      | some b, some r =>
        if b == r then (.accepted, setRevision store e.configId (r + 1))
        else (.rejectedStaleBaseRevision, store)
      | some _, none => (.rejectedUnknownConfigId, store)
      | none, _ => (.rejectedMalformedEnvelope, store)
    | none =>
      match lookupRevision store e.configId with
      | some r => (.accepted, setRevision store e.configId (r + 1))
      | none => (.accepted, (e.configId, e.revision) :: store)
  else (.rejectedMalformedEnvelope, store)

/-- events.ts lines 603-606: ModuleConfigurationCommitEvent. -/
structure ModuleConfigurationCommitEvent (C : Type) where
  identity : ModuleIdentity
  config : ModuleConfigEnvelope C
deriving DecidableEq, Repr

/-- Modelled from the spec: the responder handles a commit event by
committing its envelope against the store. -/
def handleConfigurationCommit {C : Type} (store : ConfigRevisionStore)
    (ev : ModuleConfigurationCommitEvent C) : CommitOutcome × ConfigRevisionStore :=
  commitConfig store ev.config

theorem lookupRevision_setRevision_self (store : ConfigRevisionStore)
    (cid : String) (v : Nat) (r0 : Nat) (h : lookupRevision store cid = some r0) :
    lookupRevision (setRevision store cid v) cid = some v := by
  induction store with
  | nil => simp [lookupRevision] at h
  | cons p rest ih =>
    by_cases hp : p.1 == cid
    · simp [lookupRevision, setRevision, List.find?, hp]
    · simp only [lookupRevision, setRevision, List.map_cons, List.find?, hp,
        if_neg (by simpa using hp)] at h ⊢
      simp only [hp, Bool.false_eq_true, if_false] at *
      exact ih (by simpa [lookupRevision] using h)

/-- A demonstration store holding revision 5 for configId cfg. -/
def demoStore : ConfigRevisionStore := [("cfg", 5)]

/-- A patch commit envelope whose baseRevision matches the demo store. -/
def demoPatchEnvelope : ModuleConfigEnvelope Json :=
  { configId := "cfg", revision := 5, schemaVersion := 2, source := none,
    full := none, patch := some (Json.obj []), baseRevision := some 5 }

/-- An envelope carrying both a full and a patch payload: a legal value of
the ModuleConfigEnvelope type as declared in events.ts. -/
def bothPayloadEnvelope : ModuleConfigEnvelope Json :=
  { configId := "cfg", revision := 1, schemaVersion := 1, source := none,
    full := some (Json.obj []), patch := some (Json.obj []), baseRevision := none }

/-- C1: for a commit whose envelope carries a patch payload with a
baseRevision, the commit is accepted iff baseRevision equals the stored
revision for that configId; on acceptance the stored revision increments by
exactly one, and on any rejection the store is unchanged. -/
theorem commitConfig_patch_spec {C : Type} (store : ConfigRevisionStore)
    (e : ModuleConfigEnvelope C) (p : C) (b : Nat)
    (hp : e.patch = some p) (hf : e.full = none) (hb : e.baseRevision = some b) :
    ((commitConfig store e).1 = CommitOutcome.accepted ↔
        lookupRevision store e.configId = some b)
    ∧ ((commitConfig store e).1 = CommitOutcome.accepted →
        lookupRevision (commitConfig store e).2 e.configId = some (b + 1))
    ∧ ((commitConfig store e).1 ≠ CommitOutcome.accepted →
        (commitConfig store e).2 = store) := by
  have hwf : wellFormedEnvelope e = true := by
    simp [wellFormedEnvelope, hp, hf, hb]
  rcases hl : lookupRevision store e.configId with _ | r
  · simp [commitConfig, hwf, hp, hb, hl]
  · by_cases hbr : b = r
    · subst hbr
      simp only [commitConfig, hwf, if_true, hp, hb, hl, beq_self_eq_true]
      refine ⟨by simp, fun _ => ?_, by simp⟩
      exact lookupRevision_setRevision_self store e.configId (b + 1) b hl
    · have : (b == r) = false := by simpa using hbr
      have hc : commitConfig store e = (CommitOutcome.rejectedStaleBaseRevision, store) := by
        simp [commitConfig, hwf, hp, hb, hl, this]
      rw [hc]
      refine ⟨⟨fun h2 => absurd h2 (by simp), fun h2 => ?_⟩, fun h2 => absurd h2 (by simp),
        fun _ => rfl⟩
      exact absurd (Option.some.inj h2).symm hbr

/-- Witness for C1 at the demonstration store and envelope. -/
theorem commitConfig_patch_spec_witness :
    ((commitConfig demoStore demoPatchEnvelope).1 = CommitOutcome.accepted ↔
        lookupRevision demoStore demoPatchEnvelope.configId = some 5)
    ∧ ((commitConfig demoStore demoPatchEnvelope).1 = CommitOutcome.accepted →
        lookupRevision (commitConfig demoStore demoPatchEnvelope).2
          demoPatchEnvelope.configId = some 6)
    ∧ ((commitConfig demoStore demoPatchEnvelope).1 ≠ CommitOutcome.accepted →
        (commitConfig demoStore demoPatchEnvelope).2 = demoStore) :=
  commitConfig_patch_spec demoStore demoPatchEnvelope (Json.obj []) 5 rfl rfl rfl

/-- C4 counterexample: the ModuleConfigEnvelope type does not enforce the
payload invariant; an envelope with both full and patch set is a legal
value, so the universally quantified claim fails. -/
theorem envelope_invariant_counterexample :
    ¬ (∀ e : ModuleConfigEnvelope Json,
        (e.full.isSome != e.patch.isSome) = true
        ∧ (e.patch.isSome = true → e.baseRevision.isSome = true)) := by
  intro h
  have hb := (h bothPayloadEnvelope).1
  simp [bothPayloadEnvelope] at hb

/-- C4 (amended): the envelope type itself does not enforce the invariant;
instead, every envelope accepted by the commit step satisfies it — exactly
one of full and patch is set, and an accepted patch envelope carries a
baseRevision equal to the stored (previously observed) revision. -/
theorem commitConfig_accepted_invariant {C : Type} (store : ConfigRevisionStore)
    (e : ModuleConfigEnvelope C)
    (h : (commitConfig store e).1 = CommitOutcome.accepted) :
    (e.full.isSome != e.patch.isSome) = true
    ∧ (∀ p, e.patch = some p →
        ∃ b, e.baseRevision = some b ∧ lookupRevision store e.configId = some b) := by
  by_cases hwf : wellFormedEnvelope e
  · refine ⟨?_, ?_⟩
    · have := hwf
      simp only [wellFormedEnvelope, Bool.and_eq_true] at this
      exact this.1
    · intro p hp
      rcases hb : e.baseRevision with _ | b
      · exfalso
        simp [commitConfig, hwf, hp, hb] at h
      · refine ⟨b, rfl, ?_⟩
        rcases hl : lookupRevision store e.configId with _ | r
        · exfalso
          simp [commitConfig, hwf, hp, hb, hl] at h
        · by_cases hbr : b = r
          · exact congrArg some hbr.symm
          · exfalso
            have hne : (b == r) = false := by simpa using hbr
            simp [commitConfig, hwf, hp, hb, hl, hne] at h
  · exfalso
    simp [commitConfig, hwf] at h

/-! ## Routing and targeting engine

The routing engine that resolves destination expressions is not part of the
shipped sources; it is modelled from spec section 4.4. The expression type
itself is events.ts lines 346-355. -/

/-- events.ts lines 346-355: RouteTargetExpression, a recursive boolean
expression tree over invertible leaf matchers. The inverted flag is an
optional boolean in the source. -/
inductive RouteTargetExpression where
  | and (all : List RouteTargetExpression) : RouteTargetExpression
  | or (any : List RouteTargetExpression) : RouteTargetExpression
  | glob (glob : String) (inverted : Option Bool) : RouteTargetExpression
  | ids (ids : List String) (inverted : Option Bool) : RouteTargetExpression
  | plugin (plugins : List String) (inverted : Option Bool) : RouteTargetExpression
  | «instance» (instances : List String) (inverted : Option Bool) : RouteTargetExpression
  | label (selectors : List String) (inverted : Option Bool) : RouteTargetExpression
  | module (modules : List String) (inverted : Option Bool) : RouteTargetExpression
  | source (sources : List String) (inverted : Option Bool) : RouteTargetExpression

/-- events.ts lines 357-360: RouteConfig. -/
structure RouteConfig where
  destinations : Option (List (Sum String RouteTargetExpression))
  bypass : Option Bool

/-- Modelled from the spec: one live registry entry known to the routing
engine — a ModuleIdentity plus its source tag metadata (spec 4.4). -/
structure RegistryEntry where
  identity : ModuleIdentity
  sourceTag : Option String

/-- The full set of module ids known to the registry. -/
def registryIds (reg : List RegistryEntry) : Finset String :=
  (reg.map (fun e => e.identity.id)).toFinset

/-- Modelled from the spec: glob matching with the star wildcard, as used by
glob leaf matchers (spec scenario 3 matches ids against a star pattern). -/
def globMatchChars : List Char → List Char → Bool
  | [], [] => true
  | '*' :: ps, [] => globMatchChars ps []
  | _ :: _, [] => false
  | [], _ :: _ => false
  | '*' :: ps, c :: cs => globMatchChars ps (c :: cs) || globMatchChars ('*' :: ps) cs
  | p :: ps, c :: cs => (p == c) && globMatchChars ps cs
termination_by p s => (p.length, s.length)

/-- Glob matching on strings. -/
def globMatch (pattern s : String) : Bool :=
  globMatchChars pattern.toList s.toList

/-- Labels attached to a registry entry (absent labels mean no labels). -/
def entryLabels (e : RegistryEntry) : List (String × String) :=
  e.identity.labels.getD []

/-- Modelled from the spec: a label selector of the form key=value matches
when the entry carries that label pair (spec scenario 3). -/
def labelSelectorMatches (labels : List (String × String)) (sel : String) : Bool :=
  labels.any (fun kv => kv.1 ++ "=" ++ kv.2 == sel)

/-- Modelled from the spec: a leaf matcher computes its match set by
filtering the registry, then applies the inverted flag by complementing
against the full registry set, not against an empty set (spec 4.4). -/
def matchSet (reg : List RegistryEntry) (pred : RegistryEntry → Bool)
    (inverted : Option Bool) : Finset String :=
  let base := ((reg.filter pred).map (fun e => e.identity.id)).toFinset
  if inverted.getD false then registryIds reg \ base else base

/-- Modelled from the spec: the routing engine evaluates an expression
against the live registry snapshot; and combines child result sets by set
intersection, or by set union; each leaf filters the registry and applies
inversion by complement against the full registry set (spec 4.4).  The ids,
instance and module leaf kinds select by module instance id, plugin by
plugin id, source by the source tag, label by requiring every selector to
match. -/
def evalRoute (reg : List RegistryEntry) : RouteTargetExpression → Finset String
  | .and all => (all.attach.map (fun x => evalRoute reg x.1)).foldr (· ∩ ·) (registryIds reg)
  | .or any => (any.attach.map (fun x => evalRoute reg x.1)).foldr (· ∪ ·) ∅
  | .glob g inv => matchSet reg (fun e => globMatch g e.identity.id) inv
  | .ids l inv => matchSet reg (fun e => l.contains e.identity.id) inv
  | .plugin l inv => matchSet reg (fun e => l.contains e.identity.plugin.id) inv
  | .«instance» l inv => matchSet reg (fun e => l.contains e.identity.id) inv
  | .label sels inv =>
      matchSet reg (fun e => sels.all (labelSelectorMatches (entryLabels e))) inv
  | .module l inv => matchSet reg (fun e => l.contains e.identity.id) inv
  | .source l inv =>
      matchSet reg (fun e => (e.sourceTag.map (fun s => l.contains s)).getD false) inv
decreasing_by
  all_goals
    simp_wf
    have := List.sizeOf_lt_of_mem x.2
    omega

/-- Modelled from the spec: inversion of a route expression — combinators
invert by De Morgan duality, leaves by toggling the inverted flag. -/
def invertRoute : RouteTargetExpression → RouteTargetExpression
  | .and all => .or (all.attach.map (fun x => invertRoute x.1))
  | .or any => .and (any.attach.map (fun x => invertRoute x.1))
  | .glob g inv => .glob g (some (!inv.getD false))
  | .ids l inv => .ids l (some (!inv.getD false))
  | .plugin l inv => .plugin l (some (!inv.getD false))
  | .«instance» l inv => .«instance» l (some (!inv.getD false))
  | .label l inv => .label l (some (!inv.getD false))
  | .module l inv => .module l (some (!inv.getD false))
  | .source l inv => .source l (some (!inv.getD false))
decreasing_by
  all_goals
    simp_wf
    have := List.sizeOf_lt_of_mem x.2
    omega

theorem matchSet_base_subset (reg : List RegistryEntry) (pred : RegistryEntry → Bool) :
    ((reg.filter pred).map (fun e => e.identity.id)).toFinset ⊆ registryIds reg := by
  intro x hx
  simp only [List.mem_toFinset, List.mem_map, List.mem_filter] at hx
  rcases hx with ⟨e, ⟨he, _⟩, hid⟩
  simp only [registryIds, List.mem_toFinset, List.mem_map]
  exact ⟨e, he, hid⟩

theorem matchSet_invert (reg : List RegistryEntry) (pred : RegistryEntry → Bool)
    (inv : Option Bool) :
    matchSet reg pred (some (!inv.getD false)) =
      registryIds reg \ matchSet reg pred inv := by
  rcases hb : inv.getD false with _ | _
  · simp [matchSet, hb]
  · simp only [matchSet, hb, Bool.not_true, if_true, if_false, Bool.false_eq_true]
    exact (Finset.sdiff_sdiff_eq_self (matchSet_base_subset reg pred)).symm

theorem sdiff_foldr_inter (full : Finset String) (l : List (Finset String)) :
    full \ l.foldr (· ∩ ·) full = (l.map (fun s => full \ s)).foldr (· ∪ ·) ∅ := by
  induction l with
  | nil => simp
  | cons a t ih =>
    simp only [List.foldr_cons, List.map_cons, Finset.sdiff_inter_distrib_right, ih]

theorem sdiff_foldr_union (full : Finset String) (l : List (Finset String)) :
    full \ l.foldr (· ∪ ·) ∅ = (l.map (fun s => full \ s)).foldr (· ∩ ·) full := by
  induction l with
  | nil => simp
  | cons a t ih =>
    simp only [List.foldr_cons, List.map_cons, Finset.sdiff_union_distrib, ih]

/-- Equation for the and combinator in plain map form. -/
theorem evalRoute_and (reg : List RegistryEntry) (all : List RouteTargetExpression) :
    evalRoute reg (.and all) = (all.map (evalRoute reg)).foldr (· ∩ ·) (registryIds reg) := by
  rw [evalRoute, List.attach_map_val]

/-- Equation for the or combinator in plain map form. -/
theorem evalRoute_or (reg : List RegistryEntry) (any : List RouteTargetExpression) :
    evalRoute reg (.or any) = (any.map (evalRoute reg)).foldr (· ∪ ·) ∅ := by
  rw [evalRoute, List.attach_map_val]

/-- Equation for inversion of the and combinator in plain map form. -/
theorem invertRoute_and (all : List RouteTargetExpression) :
    invertRoute (.and all) = .or (all.map invertRoute) := by
  rw [invertRoute, List.attach_map_val]

/-- Equation for inversion of the or combinator in plain map form. -/
theorem invertRoute_or (any : List RouteTargetExpression) :
    invertRoute (.or any) = .and (any.map invertRoute) := by
  rw [invertRoute, List.attach_map_val]

theorem evalRoute_invertRoute_aux (reg : List RegistryEntry)
    (x : RouteTargetExpression) :
    evalRoute reg (invertRoute x) = registryIds reg \ evalRoute reg x := by
  induction x using invertRoute.induct with
  | case1 all ih =>
    rw [invertRoute_and, evalRoute_or, evalRoute_and, sdiff_foldr_inter,
      List.map_map, List.map_map]
    congr 1
    refine List.map_congr_left ?_
    intro a ha
    exact ih ⟨a, ha⟩
  | case2 any ih =>
    rw [invertRoute_or, evalRoute_and, evalRoute_or, sdiff_foldr_union,
      List.map_map, List.map_map]
    congr 1
    refine List.map_congr_left ?_
    intro a ha
    exact ih ⟨a, ha⟩
  | case3 g inv =>
    simp only [invertRoute, evalRoute]
    exact matchSet_invert reg _ inv
  | case4 l inv =>
    simp only [invertRoute, evalRoute]
    exact matchSet_invert reg _ inv
  | case5 l inv =>
    simp only [invertRoute, evalRoute]
    exact matchSet_invert reg _ inv
  | case6 l inv =>
    simp only [invertRoute, evalRoute]
    exact matchSet_invert reg _ inv
  | case7 l inv =>
    simp only [invertRoute, evalRoute]
    exact matchSet_invert reg _ inv
  | case8 l inv =>
    simp only [invertRoute, evalRoute]
    exact matchSet_invert reg _ inv
  | case9 l inv =>
    simp only [invertRoute, evalRoute]
    exact matchSet_invert reg _ inv

/-- A demonstration identity for a module instance id with no labels. -/
def mkDemoIdentity (id : String) (labels : Option (List (String × String))) :
    ModuleIdentity :=
  { id := id, kind := .plugin,
    plugin := { id := id, version := none, labels := none }, labels := labels }

/-- The registry of spec scenario 3. -/
def demoRegistry : List RegistryEntry :=
  [ { identity := mkDemoIdentity "stage-web" (some [("env", "prod")]), sourceTag := none },
    { identity := mkDemoIdentity "telegram-bot" (some [("env", "prod")]), sourceTag := none } ]

/-- The expression of spec scenario 3: prod-labelled entries that do not
match the stage glob. -/
def demoScenario3Expr : RouteTargetExpression :=
  .and [.label ["env=prod"] none, .glob "stage-*" (some true)]

/-- Sanity check: the evaluator resolves spec scenario 3 as specified. -/
theorem evalRoute_scenario3 :
    evalRoute demoRegistry demoScenario3Expr = {"telegram-bot"} := by
  simp [evalRoute, matchSet, registryIds, demoRegistry, demoScenario3Expr, globMatch,
    globMatchChars, labelSelectorMatches, entryLabels, mkDemoIdentity]

/-- C2: evaluating the inversion of a route expression yields exactly the
registry set minus the evaluation of the expression — inversion complements
against the full registry set, never against the empty set; in particular
an inverted leaf whose matcher selects no registry entries evaluates to the
full registry set. -/
theorem evalRoute_invertRoute :
    (∀ (reg : List RegistryEntry) (x : RouteTargetExpression),
        evalRoute reg (invertRoute x) = registryIds reg \ evalRoute reg x)
    ∧ (∀ (reg : List RegistryEntry) (pred : RegistryEntry → Bool),
        reg.filter pred = [] →
          matchSet reg pred (some true) = registryIds reg) := by
  refine ⟨evalRoute_invertRoute_aux, ?_⟩
  intro reg pred hempty
  simp [matchSet, hempty]

/-- Witness for C2 at a leaf matching no entries of the demo registry. -/
theorem evalRoute_invertRoute_witness :
    matchSet demoRegistry (fun e => e.identity.id == "absent-module") (some true)
      = registryIds demoRegistry :=
  evalRoute_invertRoute.2 demoRegistry (fun e => e.identity.id == "absent-module")
    rfl

/-- Witness for the amended C4 theorem at an accepted demonstration commit. -/
theorem commitConfig_accepted_invariant_witness :
    (demoPatchEnvelope.full.isSome != demoPatchEnvelope.patch.isSome) = true
    ∧ (∀ p, demoPatchEnvelope.patch = some p →
        ∃ b, demoPatchEnvelope.baseRevision = some b
          ∧ lookupRevision demoStore demoPatchEnvelope.configId = some b) :=
  commitConfig_accepted_invariant demoStore demoPatchEnvelope rfl

/-! ## Module lifecycle -/

/-- events.ts lines 152-159: ModulePhase. -/
inductive ModulePhase where
  | announced : ModulePhase
  | preparing : ModulePhase
  | prepared : ModulePhase
  | configurationNeeded : ModulePhase
  | configured : ModulePhase
  | ready : ModulePhase
  | failed : ModulePhase
deriving DecidableEq, Repr

/-- events.ts lines 558-563: ModuleStatusEvent. -/
structure ModuleStatusEvent where
  identity : ModuleIdentity
  phase : ModulePhase
  reason : Option String
  details : Option RecordUnknown

/-- events.ts lines 704-709: ModuleStatusChangeEvent. -/
structure ModuleStatusChangeEvent where
  identity : ModuleIdentity
  phase : ModulePhase
  reason : Option String
  details : Option RecordUnknown

/-- Position of a phase in the forward lifecycle order, used by the
re-entry rule (ready may return to any earlier phase). -/
def phaseOrder : ModulePhase → Nat
  | .announced => 0
  | .preparing => 1
  | .prepared => 2
  | .configurationNeeded => 3
  | .configured => 4
  | .ready => 5
  | .failed => 6

/-- Modelled from the spec: the lifecycle state machine transition rules of
spec 4.1 (the machine itself is not part of the shipped sources).  Forward
transitions follow the listed edges; any non-failed phase may move to
failed only with a reason; ready may re-enter any earlier phase on request;
failed is terminal. -/
def phaseTransitionAllowed : ModulePhase → ModulePhase → Option String → Bool
  | .announced, .preparing, _ => true
  | .preparing, .prepared, _ => true
  | .preparing, .configurationNeeded, _ => true
  | .configurationNeeded, .configured, _ => true
  | .configured, .ready, _ => true
  | .prepared, .ready, _ => true
  | f, .failed, reason => decide (f ≠ .failed) && reason.isSome
  | .ready, t, _ => decide (phaseOrder t < phaseOrder .ready)
  | _, _, _ => false

/-- Modelled from the spec: on every legal transition the host emits a
module:status event carrying the new phase and the transition reason
(spec 4.1, side effect on every transition). -/
def statusEventOfTransition (identity : ModuleIdentity) (f t : ModulePhase)
    (reason : Option String) : Option ModuleStatusEvent :=
  if phaseTransitionAllowed f t reason then
    some { identity := identity, phase := t, reason := reason, details := none }
  else none

/-- Modelled from the spec: a module-initiated module:status:change request
is honoured only when the requested transition is legal from the current
phase. -/
def statusChangeRequestOk (current : ModulePhase) (ev : ModuleStatusChangeEvent) : Bool :=
  phaseTransitionAllowed current ev.phase ev.reason

theorem phaseTransitionAllowed_failed_isSome (f : ModulePhase) (r : Option String)
    (h : phaseTransitionAllowed f .failed r = true) : r.isSome = true := by
  cases f <;> simp [phaseTransitionAllowed] at h <;> simp [h]

/-- C6: every lifecycle transition into the failed phase carries a reason —
an emitted module:status event announcing failed has its reason field set,
and a module:status:change request for failed is only honoured when its
reason field is set. -/
theorem failed_transition_requires_reason :
    (∀ (identity : ModuleIdentity) (f : ModulePhase) (reason : Option String)
        (ev : ModuleStatusEvent),
      statusEventOfTransition identity f .failed reason = some ev →
        ev.phase = .failed ∧ ev.reason.isSome = true)
    ∧ (∀ (current : ModulePhase) (ev : ModuleStatusChangeEvent),
        statusChangeRequestOk current ev = true → ev.phase = .failed →
          ev.reason.isSome = true) := by
  constructor
  · intro identity f reason ev h
    by_cases hp : phaseTransitionAllowed f .failed reason
    · simp only [statusEventOfTransition, hp, if_true, Option.some_inj] at h
      subst h
      exact ⟨rfl, phaseTransitionAllowed_failed_isSome f reason hp⟩
    · simp [statusEventOfTransition, hp] at h
  · intro current ev h hph
    unfold statusChangeRequestOk at h
    rw [hph] at h
    exact phaseTransitionAllowed_failed_isSome current ev.reason h

/-- A module:status event announcing a failure with a reason. -/
def demoFailedStatusEvent : ModuleStatusEvent :=
  { identity := mkDemoIdentity "m1" none, phase := .failed,
    reason := some "boom", details := none }

/-- A module:status:change request into failed with a reason. -/
def demoFailedChangeEvent : ModuleStatusChangeEvent :=
  { identity := mkDemoIdentity "m1" none, phase := .failed,
    reason := some "boom", details := none }

/-- Witness for C6 at a concrete failing transition from preparing. -/
theorem failed_transition_requires_reason_witness :
    (demoFailedStatusEvent.phase = .failed ∧ demoFailedStatusEvent.reason.isSome = true)
    ∧ demoFailedChangeEvent.reason.isSome = true :=
  ⟨failed_transition_requires_reason.1 (mkDemoIdentity "m1" none) .preparing
      (some "boom") demoFailedStatusEvent rfl,
    failed_transition_requires_reason.2 .preparing demoFailedChangeEvent rfl rfl⟩

/-! ## Spark coordination channel: emit state progression -/

/-- events.ts line 760: the spark emit state literal union. -/
inductive SparkEmitState where
  | queued : SparkEmitState
  | working : SparkEmitState
  | done : SparkEmitState
  | dropped : SparkEmitState
  | blocked : SparkEmitState
  | expired : SparkEmitState
deriving DecidableEq, Repr

/-- events.ts lines 757-764: SparkEmitEvent. -/
structure SparkEmitEvent where
  id : String
  eventId : Option String
  state : SparkEmitState
  note : Option String
  destinations : List String
  metadata : Option RecordUnknown

/-- Rank of a spark emit state along the one-way progression: queued before
working before the terminal states. -/
def sparkEmitStateRank : SparkEmitState → Nat
  | .queued => 0
  | .working => 1
  | _ => 2

/-- Modelled from the spec: the legal transitions of the one-way progression
queued to working to one of done, dropped, blocked, expired (spec 4.5). -/
def sparkEmitStep : SparkEmitState → SparkEmitState → Bool
  | .queued, .working => true
  | .working, .done => true
  | .working, .dropped => true
  | .working, .blocked => true
  | .working, .expired => true
  | _, _ => false

/-- Modelled from the spec: a receiver tolerates duplicate or out-of-order
deliveries by applying only legal forward transitions and discarding the
rest (spec section 5, tolerate or discard out-of-order status updates). -/
def applyEmitDelivery (cur next : SparkEmitState) : SparkEmitState :=
  if sparkEmitStep cur next then next else cur

/-- Fold the spark:emit deliveries of one correlation (one id and eventId
pair) into the observed state. -/
def observeSparkEmits (init : SparkEmitState) (events : List SparkEmitEvent) :
    SparkEmitState :=
  events.foldl (fun cur e => applyEmitDelivery cur e.state) init

theorem sparkEmitStep_rank_lt (a b : SparkEmitState) (h : sparkEmitStep a b = true) :
    sparkEmitStateRank a < sparkEmitStateRank b := by
  cases a <;> cases b <;> first | exact absurd h (by decide) | decide

theorem sparkEmitStateRank_le_applyEmitDelivery (cur next : SparkEmitState) :
    sparkEmitStateRank cur ≤ sparkEmitStateRank (applyEmitDelivery cur next) := by
  by_cases h : sparkEmitStep cur next
  · rw [applyEmitDelivery, if_pos h]
    exact Nat.le_of_lt (sparkEmitStep_rank_lt cur next h)
  · rw [applyEmitDelivery, if_neg h]

/-- C3: spark emit states advance one way only — every legal step strictly
increases the progression rank, no sequence of deliveries ever decreases
the observed rank, and a done-then-working delivery leaves the observed
state at done (a reverse transition is never produced). -/
theorem sparkEmit_one_way :
    (∀ a b : SparkEmitState, sparkEmitStep a b = true →
        sparkEmitStateRank a < sparkEmitStateRank b)
    ∧ (∀ (init : SparkEmitState) (events : List SparkEmitEvent),
        sparkEmitStateRank init ≤ sparkEmitStateRank (observeSparkEmits init events))
    ∧ applyEmitDelivery .done .working = .done
    ∧ sparkEmitStep .done .working = false := by
  refine ⟨sparkEmitStep_rank_lt, ?_, rfl, rfl⟩
  intro init events
  induction events generalizing init with
  | nil => exact Nat.le_refl _
  | cons e t ih =>
    calc sparkEmitStateRank init
        ≤ sparkEmitStateRank (applyEmitDelivery init e.state) :=
          sparkEmitStateRank_le_applyEmitDelivery init e.state
      _ ≤ sparkEmitStateRank (observeSparkEmits (applyEmitDelivery init e.state) t) :=
          ih (applyEmitDelivery init e.state)
      _ = sparkEmitStateRank (observeSparkEmits init (e :: t)) := rfl

/-- A spark:emit delivery reporting the working state. -/
def demoEmitWorking : SparkEmitEvent :=
  { id := "s1", eventId := some "e1", state := .working, note := none,
    destinations := ["character"], metadata := none }

/-- Witness for C3 at a concrete step and a concrete delivery sequence. -/
theorem sparkEmit_one_way_witness :
    sparkEmitStateRank .queued < sparkEmitStateRank .working
    ∧ sparkEmitStateRank .done ≤
        sparkEmitStateRank (observeSparkEmits .done [demoEmitWorking]) :=
  ⟨sparkEmit_one_way.1 .queued .working rfl,
    sparkEmit_one_way.2.1 .done [demoEmitWorking]⟩

/-! ## Structural validators for TypeScript interface shapes

A TypeScript interface denotes a set of JSON values; each validator below
decides membership for one interface, field for field, following TS
structural typing (extra fields are allowed, optional fields may be
absent). -/

/-- First value bound to a key in a JSON object field list. -/
def lookupField (fields : RecordUnknown) (k : String) : Option Json :=
  (fields.find? (fun p => p.1 == k)).map (fun p => p.2)

/-- The value is a JSON string. -/
def isStringJson : Json → Bool
  | .str _ => true
  | _ => false

/-- The value is a JSON number. -/
def isNumberJson : Json → Bool
  | .num _ => true
  | _ => false

/-- The value is a JSON boolean. -/
def isBoolJson : Json → Bool
  | .bool _ => true
  | _ => false

/-- The value is a JSON object (TypeScript Record of string to unknown). -/
def isRecordJson : Json → Bool
  | .obj _ => true
  | _ => false

/-- The value is an array whose every element satisfies p. -/
def isArrayOf (p : Json → Bool) : Json → Bool
  | .arr xs => xs.all p
  | _ => false

/-- The value is an object whose every field value satisfies p. -/
def isRecordOf (p : Json → Bool) : Json → Bool
  | .obj fs => fs.all (fun kv => p kv.2)
  | _ => false

/-- The value is an array of strings. -/
def isStringArray : Json → Bool :=
  isArrayOf isStringJson

/-- The value is one of the given string literals. -/
def oneOfStr (ss : List String) : Json → Bool
  | .str s => ss.contains s
  | _ => false

/-- A required field: present and satisfying p. -/
def reqField (fields : RecordUnknown) (k : String) (p : Json → Bool) : Bool :=
  match lookupField fields k with
  | some v => p v
  | none => false

/-- An optional field: absent, or present and satisfying p. -/
def optField (fields : RecordUnknown) (k : String) (p : Json → Bool) : Bool :=
  match lookupField fields k with
  | some v => p v
  | none => true

/-! ## Context updates (events.ts lines 393-430) -/

/-- events.ts lines 393-396: ContextUpdateStrategy. -/
inductive ContextUpdateStrategy where
  | replaceSelf : ContextUpdateStrategy
  | appendSelf : ContextUpdateStrategy
deriving DecidableEq, Repr

/-- events.ts lines 398-409: ContextUpdateDestinationFilter, the union of
the all-marker object and an include and exclude list object. -/
inductive ContextUpdateDestinationFilter where
  | all : ContextUpdateDestinationFilter
  | list («include» : Option (List String)) (exclude : Option (List String)) :
      ContextUpdateDestinationFilter
deriving DecidableEq, Repr

/-- events.ts lines 411-430: ContextUpdate, generic in metadata and content
payload types.  Destinations accept either a plain string array or a
ContextUpdateDestinationFilter. -/
structure ContextUpdate (Metadata Content : Type) where
  id : String
  contextId : String
  lane : Option String
  ideas : Option (List String)
  hints : Option (List String)
  strategy : ContextUpdateStrategy
  text : String
  content : Option Content
  destinations : Option (Sum (List String) ContextUpdateDestinationFilter)
  metadata : Option Metadata

/-- Validator for the ContextUpdateDestinationFilter union: the all marker
must be literally true; otherwise the include and exclude lists, when
present, must be string arrays (TS structural typing). -/
def isContextUpdateDestinationFilterJson : Json → Bool
  | .obj fs =>
      (match lookupField fs "all" with
        | some (Json.bool true) => true
        | _ => false)
      || (optField fs "include" isStringArray && optField fs "exclude" isStringArray
            && (lookupField fs "all").isNone)
  | _ => false

/-- Destinations of a context update: a plain string array or a filter. -/
def isContextUpdateDestinationsJson (j : Json) : Bool :=
  isStringArray j || isContextUpdateDestinationFilterJson j

/-- Validator for the ContextUpdate interface (events.ts lines 411-430).
The content field is the generic Content payload and is unconstrained. -/
def isContextUpdateJson : Json → Bool
  | .obj fs =>
      reqField fs "id" isStringJson
      && reqField fs "contextId" isStringJson
      && optField fs "lane" isStringJson
      && optField fs "ideas" isStringArray
      && optField fs "hints" isStringArray
      && reqField fs "strategy" (oneOfStr ["replace-self", "append-self"])
      && reqField fs "text" isStringJson
      && optField fs "destinations" isContextUpdateDestinationsJson
      && optField fs "metadata" isRecordJson
  | _ => false

/-! ## Spark notify and command shapes (events.ts lines 742-806) -/

/-- events.ts line 746: notify kind literal union. -/
inductive SparkNotifyKind where
  | alarm : SparkNotifyKind
  | ping : SparkNotifyKind
  | reminder : SparkNotifyKind
deriving DecidableEq, Repr

/-- events.ts line 747: notify urgency literal union. -/
inductive SparkUrgency where
  | immediate : SparkUrgency
  | soon : SparkUrgency
  | later : SparkUrgency
deriving DecidableEq, Repr

/-- events.ts lines 742-755: SparkNotifyEvent — id and eventId are required
strings and destinations is a required array of plain module id strings. -/
structure SparkNotifyEvent where
  id : String
  eventId : String
  lane : Option String
  kind : SparkNotifyKind
  urgency : SparkUrgency
  headline : String
  note : Option String
  payload : Option RecordUnknown
  ttlMs : Option Int
  requiresAck : Option Bool
  destinations : List String
  metadata : Option RecordUnknown

/-- events.ts line 799: interrupt is force, soft, or the literal false. -/
inductive SparkInterrupt where
  | force : SparkInterrupt
  | soft : SparkInterrupt
  | noInterrupt : SparkInterrupt
deriving DecidableEq, Repr

/-- events.ts line 800: command priority literal union. -/
inductive SparkPriority where
  | critical : SparkPriority
  | high : SparkPriority
  | normal : SparkPriority
  | low : SparkPriority
deriving DecidableEq, Repr

/-- events.ts line 801: command intent literal union. -/
inductive SparkIntent where
  | plan : SparkIntent
  | proposal : SparkIntent
  | action : SparkIntent
  | pause : SparkIntent
  | resume : SparkIntent
  | reroute : SparkIntent
  | context : SparkIntent
deriving DecidableEq, Repr

/-- events.ts line 771: guidance option risk literal union (the source
literal none is spelled noRisk here). -/
inductive SparkRisk where
  | high : SparkRisk
  | medium : SparkRisk
  | low : SparkRisk
  | noRisk : SparkRisk
deriving DecidableEq, Repr

/-- events.ts lines 766-774: SparkCommandGuidanceOption. -/
structure SparkCommandGuidanceOption where
  label : String
  steps : List String
  rationale : Option String
  possibleOutcome : Option (List String)
  risk : Option SparkRisk
  fallback : Option (List String)
  triggers : Option (List String)
deriving DecidableEq, Repr

/-- events.ts line 777: guidance type literal union. -/
inductive SparkGuidanceType where
  | proposal : SparkGuidanceType
  | instruction : SparkGuidanceType
  | memoryRecall : SparkGuidanceType
deriving DecidableEq, Repr

/-- events.ts line 790: persona level literal union. -/
inductive PersonaLevel where
  | veryHigh : PersonaLevel
  | high : PersonaLevel
  | medium : PersonaLevel
  | low : PersonaLevel
  | veryLow : PersonaLevel
deriving DecidableEq, Repr

/-- events.ts lines 776-792: SparkCommandGuidance. -/
structure SparkCommandGuidance where
  type : SparkGuidanceType
  persona : Option (List (String × PersonaLevel))
  options : List SparkCommandGuidanceOption
deriving DecidableEq, Repr

/-- events.ts lines 794-806: SparkCommandEvent — eventId is optional and
destinations is a required array of plain module id strings.  The contexts
field carries context updates at the default generic instantiation. -/
structure SparkCommandEvent where
  id : String
  eventId : Option String
  parentEventId : Option String
  commandId : String
  interrupt : SparkInterrupt
  priority : SparkPriority
  intent : SparkIntent
  ack : Option String
  guidance : Option SparkCommandGuidance
  contexts : Option (List (ContextUpdate RecordUnknown Empty))
  destinations : List String

/-- Validator for the SparkNotifyEvent interface (events.ts lines 742-755). -/
def isSparkNotifyJson : Json → Bool
  | .obj fs =>
      reqField fs "id" isStringJson
      && reqField fs "eventId" isStringJson
      && optField fs "lane" isStringJson
      && reqField fs "kind" (oneOfStr ["alarm", "ping", "reminder"])
      && reqField fs "urgency" (oneOfStr ["immediate", "soon", "later"])
      && reqField fs "headline" isStringJson
      && optField fs "note" isStringJson
      && optField fs "payload" isRecordJson
      && optField fs "ttlMs" isNumberJson
      && optField fs "requiresAck" isBoolJson
      && reqField fs "destinations" isStringArray
      && optField fs "metadata" isRecordJson
  | _ => false

/-- Validator for the SparkEmitEvent interface (events.ts lines 757-764). -/
def isSparkEmitJson : Json → Bool
  | .obj fs =>
      reqField fs "id" isStringJson
      && optField fs "eventId" isStringJson
      && reqField fs "state"
          (oneOfStr ["queued", "working", "done", "dropped", "blocked", "expired"])
      && optField fs "note" isStringJson
      && reqField fs "destinations" isStringArray
      && optField fs "metadata" isRecordJson
  | _ => false

/-- Validator for the SparkCommandGuidanceOption interface. -/
def isSparkCommandGuidanceOptionJson : Json → Bool
  | .obj fs =>
      reqField fs "label" isStringJson
      && reqField fs "steps" isStringArray
      && optField fs "rationale" isStringJson
      && optField fs "possibleOutcome" isStringArray
      && optField fs "risk" (oneOfStr ["high", "medium", "low", "none"])
      && optField fs "fallback" isStringArray
      && optField fs "triggers" isStringArray
  | _ => false

/-- Validator for the SparkCommandGuidance interface. -/
def isSparkCommandGuidanceJson : Json → Bool
  | .obj fs =>
      reqField fs "type" (oneOfStr ["proposal", "instruction", "memory-recall"])
      && optField fs "persona"
          (isRecordOf (oneOfStr ["very-high", "high", "medium", "low", "very-low"]))
      && reqField fs "options" (isArrayOf isSparkCommandGuidanceOptionJson)
  | _ => false

/-- Validator for the SparkCommandEvent interface (events.ts lines 794-806). -/
def isSparkCommandJson : Json → Bool
  | .obj fs =>
      reqField fs "id" isStringJson
      && optField fs "eventId" isStringJson
      && optField fs "parentEventId" isStringJson
      && reqField fs "commandId" isStringJson
      && reqField fs "interrupt"
          (fun j => match j with
            | Json.str s => s == "force" || s == "soft"
            | Json.bool b => b == false
            | _ => false)
      && reqField fs "priority" (oneOfStr ["critical", "high", "normal", "low"])
      && reqField fs "intent"
          (oneOfStr ["plan", "proposal", "action", "pause", "resume", "reroute", "context"])
      && optField fs "ack" isStringJson
      && optField fs "guidance" isSparkCommandGuidanceJson
      && optField fs "contexts" (isArrayOf isContextUpdateJson)
      && reqField fs "destinations" isStringArray
  | _ => false

/-- Field list of a well formed spark:notify payload. -/
def demoNotifyFields : RecordUnknown :=
  [("id", .str "n1"), ("eventId", .str "e1"), ("kind", .str "alarm"),
    ("urgency", .str "immediate"), ("headline", .str "Under attack"),
    ("destinations", .arr [.str "character"])]

/-- The same notify payload with the eventId field removed. -/
def demoNotifyNoEventIdJson : Json :=
  .obj [("id", .str "n1"), ("kind", .str "alarm"), ("urgency", .str "immediate"),
    ("headline", .str "Under attack"), ("destinations", .arr [.str "character"])]

/-- A spark:emit payload without an eventId field. -/
def demoEmitNoEventIdJson : Json :=
  .obj [("id", .str "s1"), ("state", .str "done"),
    ("destinations", .arr [.str "character"])]

/-- A spark:command payload without an eventId field. -/
def demoCommandNoEventIdJson : Json :=
  .obj [("id", .str "c0"), ("commandId", .str "c1"), ("interrupt", .bool false),
    ("priority", .str "critical"), ("intent", .str "action"),
    ("destinations", .arr [.str "minecraft-agent"])]

/-- A spark:emit payload whose destinations hold a route expression object
instead of plain id strings. -/
def demoEmitExprDestJson : Json :=
  .obj [("id", .str "s1"), ("state", .str "done"),
    ("destinations", .arr [.obj [("type", .str "glob"), ("glob", .str "stage-*")]])]

/-- C9: in all three spark payloads destinations is a required array of
plain module id strings and never a route expression; spark:notify requires
both id and eventId as strings, while spark:emit and spark:command accept a
payload with no eventId. -/
theorem spark_destinations_plain :
    (∀ fs : RecordUnknown, isSparkNotifyJson (Json.obj fs) = true →
        reqField fs "id" isStringJson = true
        ∧ reqField fs "eventId" isStringJson = true
        ∧ reqField fs "destinations" isStringArray = true)
    ∧ (∀ fs : RecordUnknown, isSparkEmitJson (Json.obj fs) = true →
        reqField fs "destinations" isStringArray = true)
    ∧ (∀ fs : RecordUnknown, isSparkCommandJson (Json.obj fs) = true →
        reqField fs "destinations" isStringArray = true)
    ∧ isSparkEmitJson demoEmitNoEventIdJson = true
    ∧ isSparkCommandJson demoCommandNoEventIdJson = true
    ∧ isSparkNotifyJson demoNotifyNoEventIdJson = false
    ∧ isSparkEmitJson demoEmitExprDestJson = false := by
  refine ⟨?_, ?_, ?_, by decide, by decide, by decide, by decide⟩
  · intro fs h
    simp only [isSparkNotifyJson, Bool.and_eq_true] at h
    tauto
  · intro fs h
    simp only [isSparkEmitJson, Bool.and_eq_true] at h
    tauto
  · intro fs h
    simp only [isSparkCommandJson, Bool.and_eq_true] at h
    tauto

/-- Witness for C9 at the well formed notify payload. -/
theorem spark_destinations_plain_witness :
    reqField demoNotifyFields "id" isStringJson = true
    ∧ reqField demoNotifyFields "eventId" isStringJson = true
    ∧ reqField demoNotifyFields "destinations" isStringArray = true :=
  spark_destinations_plain.1 demoNotifyFields (by decide)

/-- Field list of a context update targeting a plain string list. -/
def demoCtxListDestFields : RecordUnknown :=
  [("id", .str "u1"), ("contextId", .str "ctx1"),
    ("strategy", .str "append-self"), ("text", .str "hello"),
    ("destinations", .arr [.str "character"])]

/-- A context update targeting the all marker filter. -/
def demoCtxAllDestJson : Json :=
  .obj [("id", .str "u2"), ("contextId", .str "ctx1"),
    ("strategy", .str "replace-self"), ("text", .str "hello"),
    ("destinations", .obj [("all", .bool true)])]

/-- A context update targeting an include and exclude filter. -/
def demoCtxIncludeExcludeJson : Json :=
  .obj [("id", .str "u3"), ("contextId", .str "ctx1"),
    ("strategy", .str "append-self"), ("text", .str "hello"),
    ("destinations", .obj [("include", .arr [.str "character"]),
      ("exclude", .arr [.str "minecraft-agent"])])]

/-- A context update carrying ideas and hints string arrays and no
destinations. -/
def demoCtxIdeasHintsJson : Json :=
  .obj [("id", .str "u4"), ("contextId", .str "ctx1"),
    ("ideas", .arr [.str "idea-a"]), ("hints", .arr [.str "hint-b"]),
    ("strategy", .str "append-self"), ("text", .str "hello")]

/-- A context update whose ideas field is not a string array. -/
def demoCtxBadIdeasJson : Json :=
  .obj [("id", .str "u5"), ("contextId", .str "ctx1"),
    ("ideas", .arr [.num 42]),
    ("strategy", .str "append-self"), ("text", .str "hello")]

/-- C10: every context update admits optional ideas and hints string-array
fields, and its destinations field accepts either a plain string array or a
ContextUpdateDestinationFilter (the all marker, or include and exclude
lists) — and nothing of any other shape. -/
theorem contextUpdate_shape :
    (∀ fs : RecordUnknown, isContextUpdateJson (Json.obj fs) = true →
        optField fs "ideas" isStringArray = true
        ∧ optField fs "hints" isStringArray = true
        ∧ optField fs "destinations" isContextUpdateDestinationsJson = true)
    ∧ isContextUpdateJson (Json.obj demoCtxListDestFields) = true
    ∧ isContextUpdateJson demoCtxAllDestJson = true
    ∧ isContextUpdateJson demoCtxIncludeExcludeJson = true
    ∧ isContextUpdateJson demoCtxIdeasHintsJson = true
    ∧ isContextUpdateJson demoCtxBadIdeasJson = false := by
  refine ⟨?_, by decide, by decide, by decide, by decide, by decide⟩
  intro fs h
  simp only [isContextUpdateJson, Bool.and_eq_true] at h
  tauto

/-- Witness for C10 at the plain string list destination update. -/
theorem contextUpdate_shape_witness :
    optField demoCtxListDestFields "ideas" isStringArray = true
    ∧ optField demoCtxListDestFields "hints" isStringArray = true
    ∧ optField demoCtxListDestFields "destinations" isContextUpdateDestinationsJson = true :=
  contextUpdate_shape.1 demoCtxListDestFields (by decide)

/-! ## Event base metadata and the catalogue metadata slot -/

/-- events.ts lines 476-479: the event correlation sub-object of
EventBaseMetadata. -/
structure EventCorrelationMetadata where
  id : Option String
  parentId : Option String
deriving DecidableEq, Repr

/-- events.ts lines 474-480: EventBaseMetadata. -/
structure EventBaseMetadata where
  source : Option ModuleIdentity
  event : Option EventCorrelationMetadata
deriving DecidableEq, Repr

/-- events.ts lines 504-506: ModuleAuthenticateEvent. -/
structure ModuleAuthenticateEvent where
  token : String
deriving DecidableEq, Repr

/-- events.ts lines 1078-1080: ProtocolEventOf strips any declared metadata
field from the payload and attaches an optional generic metadata record
(Record of string to unknown) instead. -/
structure ProtocolEventOf (P : Type) where
  payload : P
  metadata : Option RecordUnknown

/-- The value is an object all of whose field values are strings
(Record of string to string, the labels shape). -/
def isRecordOfStringJson : Json → Bool :=
  isRecordOf isStringJson

/-- Validator for the PluginIdentity interface (events.ts lines 18-34). -/
def isPluginIdentityJson : Json → Bool
  | .obj fs =>
      reqField fs "id" isStringJson
      && optField fs "version" isStringJson
      && optField fs "labels" isRecordOfStringJson
  | _ => false

/-- Validator for the ModuleIdentity interface (events.ts lines 36-55). -/
def isModuleIdentityJson : Json → Bool
  | .obj fs =>
      reqField fs "id" isStringJson
      && reqField fs "kind" (oneOfStr ["plugin"])
      && reqField fs "plugin" isPluginIdentityJson
      && optField fs "labels" isRecordOfStringJson
  | _ => false

/-- Validator for the event correlation sub-object. -/
def isEventCorrelationJson : Json → Bool
  | .obj fs =>
      optField fs "id" isStringJson
      && optField fs "parentId" isStringJson
  | _ => false

/-- Validator for the EventBaseMetadata interface (events.ts lines 474-480). -/
def isEventBaseMetadataJson : Json → Bool
  | .obj fs =>
      optField fs "source" isModuleIdentityJson
      && optField fs "event" isEventCorrelationJson
  | _ => false

/-- Sanity check: a well formed EventBaseMetadata record validates. -/
theorem isEventBaseMetadataJson_demo :
    isEventBaseMetadataJson (.obj [("source", .obj [("id", .str "telegram-01"),
      ("kind", .str "plugin"), ("plugin", .obj [("id", .str "telegram-bot")])]),
      ("event", .obj [("id", .str "evt-1"), ("parentId", .str "evt-0")])]) = true := by
  decide

/-- A metadata record that is a legal Record of string to unknown but not an
EventBaseMetadata (its source field is a number, not a ModuleIdentity). -/
def demoNonBaseMetadata : RecordUnknown := [("source", .num 42)]

/-- A catalogue event whose metadata slot holds the non-conforming record:
a legal value of the ProtocolEventOf type. -/
def demoAuthenticateEvent : ProtocolEventOf ModuleAuthenticateEvent :=
  { payload := { token := "secret" }, metadata := some demoNonBaseMetadata }

/-- C7 counterexample: the catalogue type attaches metadata as an arbitrary
optional record, so an event may carry metadata that is not an
EventBaseMetadata — the claim that every event carries an (optional)
EventBaseMetadata fails on the declared types. -/
theorem event_metadata_counterexample :
    ¬ (∀ (ev : ProtocolEventOf ModuleAuthenticateEvent) (m : RecordUnknown),
        ev.metadata = some m → isEventBaseMetadataJson (Json.obj m) = true) := by
  intro h
  exact absurd (h demoAuthenticateEvent demoNonBaseMetadata rfl) (by decide)

/-- Modelled from the spec: parentId links a reply to its originating
request — a response's metadata is built by copying the request's event id
into the response's parentId (spec section 6). -/
def replyMetadata (request : EventBaseMetadata) (responder : Option ModuleIdentity)
    (replyId : Option String) : EventBaseMetadata :=
  { source := responder,
    event :=
      some ({ id := replyId, parentId := request.event.bind (fun c => c.id) } :
        EventCorrelationMetadata) }

/-- C7 (amended): each catalogue event carries an optional generic metadata
record rather than a field of the declared EventBaseMetadata type; for a
response whose metadata follows the correlation rule, the parentId equals
the originating request's event id. -/
theorem replyMetadata_parentId (request : EventBaseMetadata)
    (responder : Option ModuleIdentity) (replyId : Option String) (i : String)
    (h : request.event.bind (fun c => c.id) = some i) :
    ((replyMetadata request responder replyId).event.bind (fun c => c.parentId))
      = some i := by
  simpa [replyMetadata] using h

/-- Metadata of a request carrying event id req-1. -/
def demoRequestMetadata : EventBaseMetadata :=
  { source := none, event := some { id := some "req-1", parentId := none } }

/-- Witness for the amended C7 theorem at a concrete request. -/
theorem replyMetadata_parentId_witness :
    ((replyMetadata demoRequestMetadata none (some "resp-1")).event.bind
      (fun c => c.parentId)) = some "req-1" :=
  replyMetadata_parentId demoRequestMetadata none (some "resp-1") "req-1" rfl

/-! ## The protocol event catalogue (events.ts lines 910-1076) -/

/-- events.ts lines 910-1076: the keys of the ProtocolEvents interface, one
constructor per catalogue entry, in catalogue order. -/
inductive ProtocolEventName where
  | error : ProtocolEventName
  | moduleAuthenticate : ProtocolEventName
  | moduleAuthenticated : ProtocolEventName
  | moduleCompatibilityRequest : ProtocolEventName
  | moduleCompatibilityResult : ProtocolEventName
  | registryModulesSync : ProtocolEventName
  | moduleAnnounce : ProtocolEventName
  | modulePrepared : ProtocolEventName
  | moduleConfigurationNeeded : ProtocolEventName
  | moduleStatus : ProtocolEventName
  | moduleConfigurationValidateRequest : ProtocolEventName
  | moduleConfigurationValidateResponse : ProtocolEventName
  | moduleConfigurationValidateStatus : ProtocolEventName
  | moduleConfigurationPlanRequest : ProtocolEventName
  | moduleConfigurationPlanResponse : ProtocolEventName
  | moduleConfigurationPlanStatus : ProtocolEventName
  | moduleConfigurationCommit : ProtocolEventName
  | moduleConfigurationCommitStatus : ProtocolEventName
  | moduleConfigurationConfigured : ProtocolEventName
  | moduleContributeCapabilityOffer : ProtocolEventName
  | moduleContributeCapabilityConfigurationNeeded : ProtocolEventName
  | moduleContributeCapabilityConfigurationValidateRequest : ProtocolEventName
  | moduleContributeCapabilityConfigurationValidateResponse : ProtocolEventName
  | moduleContributeCapabilityConfigurationValidateStatus : ProtocolEventName
  | moduleContributeCapabilityConfigurationPlanRequest : ProtocolEventName
  | moduleContributeCapabilityConfigurationPlanResponse : ProtocolEventName
  | moduleContributeCapabilityConfigurationPlanStatus : ProtocolEventName
  | moduleContributeCapabilityConfigurationCommit : ProtocolEventName
  | moduleContributeCapabilityConfigurationCommitStatus : ProtocolEventName
  | moduleContributeCapabilityConfigurationConfigured : ProtocolEventName
  | moduleContributeCapabilityActivated : ProtocolEventName
  | moduleStatusChange : ProtocolEventName
  | moduleConfigure : ProtocolEventName
  | uiConfigure : ProtocolEventName
  | inputText : ProtocolEventName
  | inputTextVoice : ProtocolEventName
  | inputVoice : ProtocolEventName
  | outputGenAiChatToolCall : ProtocolEventName
  | outputGenAiChatMessage : ProtocolEventName
  | outputGenAiChatComplete : ProtocolEventName
  | sparkNotify : ProtocolEventName
  | sparkEmit : ProtocolEventName
  | sparkCommand : ProtocolEventName
  | speakText : ProtocolEventName
  | transportConnectionHeartbeat : ProtocolEventName
  | contextUpdate : ProtocolEventName
deriving DecidableEq, Repr

/-- The catalogue key string of each event name. -/
def eventNameString : ProtocolEventName → String
  | .error => "error"
  | .moduleAuthenticate => "module:authenticate"
  | .moduleAuthenticated => "module:authenticated"
  | .moduleCompatibilityRequest => "module:compatibility:request"
  | .moduleCompatibilityResult => "module:compatibility:result"
  | .registryModulesSync => "registry:modules:sync"
  | .moduleAnnounce => "module:announce"
  | .modulePrepared => "module:prepared"
  | .moduleConfigurationNeeded => "module:configuration:needed"
  | .moduleStatus => "module:status"
  | .moduleConfigurationValidateRequest => "module:configuration:validate:request"
  | .moduleConfigurationValidateResponse => "module:configuration:validate:response"
  | .moduleConfigurationValidateStatus => "module:configuration:validate:status"
  | .moduleConfigurationPlanRequest => "module:configuration:plan:request"
  | .moduleConfigurationPlanResponse => "module:configuration:plan:response"
  | .moduleConfigurationPlanStatus => "module:configuration:plan:status"
  | .moduleConfigurationCommit => "module:configuration:commit"
  | .moduleConfigurationCommitStatus => "module:configuration:commit:status"
  | .moduleConfigurationConfigured => "module:configuration:configured"
  | .moduleContributeCapabilityOffer => "module:contribute:capability:offer"
  | .moduleContributeCapabilityConfigurationNeeded => "module:contribute:capability:configuration:needed"
  | .moduleContributeCapabilityConfigurationValidateRequest => "module:contribute:capability:configuration:validate:request"
  | .moduleContributeCapabilityConfigurationValidateResponse => "module:contribute:capability:configuration:validate:response"
  | .moduleContributeCapabilityConfigurationValidateStatus => "module:contribute:capability:configuration:validate:status"
  | .moduleContributeCapabilityConfigurationPlanRequest => "module:contribute:capability:configuration:plan:request"
  | .moduleContributeCapabilityConfigurationPlanResponse => "module:contribute:capability:configuration:plan:response"
  | .moduleContributeCapabilityConfigurationPlanStatus => "module:contribute:capability:configuration:plan:status"
  | .moduleContributeCapabilityConfigurationCommit => "module:contribute:capability:configuration:commit"
  | .moduleContributeCapabilityConfigurationCommitStatus => "module:contribute:capability:configuration:commit:status"
  | .moduleContributeCapabilityConfigurationConfigured => "module:contribute:capability:configuration:configured"
  | .moduleContributeCapabilityActivated => "module:contribute:capability:activated"
  | .moduleStatusChange => "module:status:change"
  | .moduleConfigure => "module:configure"
  | .uiConfigure => "ui:configure"
  | .inputText => "input:text"
  | .inputTextVoice => "input:text:voice"
  | .inputVoice => "input:voice"
  | .outputGenAiChatToolCall => "output:gen-ai:chat:tool-call"
  | .outputGenAiChatMessage => "output:gen-ai:chat:message"
  | .outputGenAiChatComplete => "output:gen-ai:chat:complete"
  | .sparkNotify => "spark:notify"
  | .sparkEmit => "spark:emit"
  | .sparkCommand => "spark:command"
  | .speakText => "speak:text"
  | .transportConnectionHeartbeat => "transport:connection:heartbeat"
  | .contextUpdate => "context:update"

/-- The catalogue key strings in catalogue order (events.ts lines 910-1076). -/
def protocolEventNames : List String :=
  ["error",
    "module:authenticate",
    "module:authenticated",
    "module:compatibility:request",
    "module:compatibility:result",
    "registry:modules:sync",
    "module:announce",
    "module:prepared",
    "module:configuration:needed",
    "module:status",
    "module:configuration:validate:request",
    "module:configuration:validate:response",
    "module:configuration:validate:status",
    "module:configuration:plan:request",
    "module:configuration:plan:response",
    "module:configuration:plan:status",
    "module:configuration:commit",
    "module:configuration:commit:status",
    "module:configuration:configured",
    "module:contribute:capability:offer",
    "module:contribute:capability:configuration:needed",
    "module:contribute:capability:configuration:validate:request",
    "module:contribute:capability:configuration:validate:response",
    "module:contribute:capability:configuration:validate:status",
    "module:contribute:capability:configuration:plan:request",
    "module:contribute:capability:configuration:plan:response",
    "module:contribute:capability:configuration:plan:status",
    "module:contribute:capability:configuration:commit",
    "module:contribute:capability:configuration:commit:status",
    "module:contribute:capability:configuration:configured",
    "module:contribute:capability:activated",
    "module:status:change",
    "module:configure",
    "ui:configure",
    "input:text",
    "input:text:voice",
    "input:voice",
    "output:gen-ai:chat:tool-call",
    "output:gen-ai:chat:message",
    "output:gen-ai:chat:complete",
    "spark:notify",
    "spark:emit",
    "spark:command",
    "speak:text",
    "transport:connection:heartbeat",
    "context:update"]

/-- events.ts lines 538-544: ModuleAnnounceEvent — possibleEvents is a list
of catalogue keys (keyof ProtocolEvents). -/
structure ModuleAnnounceEvent where
  name : String
  identity : ModuleIdentity
  possibleEvents : List ProtocolEventName
  configSchema : Option ModuleConfigSchema
  dependencies : Option (List ModuleDependency)

/-- C8: every entry of an announce event's possibleEvents list is a key of
the protocol event catalogue — announce can never declare an event name
outside the catalogue. -/
theorem announce_possibleEvents_in_catalogue (a : ModuleAnnounceEvent)
    (e : ProtocolEventName) (_he : e ∈ a.possibleEvents) :
    eventNameString e ∈ protocolEventNames := by
  cases e <;> decide

/-- A demonstration announce event declaring one possible event. -/
def demoAnnounceEvent : ModuleAnnounceEvent :=
  { name := "telegram", identity := mkDemoIdentity "telegram-01" none,
    possibleEvents := [.sparkNotify], configSchema := none, dependencies := none }

/-- Witness for C8 at the demonstration announce event. -/
theorem announce_possibleEvents_in_catalogue_witness :
    eventNameString .sparkNotify ∈ protocolEventNames :=
  announce_possibleEvents_in_catalogue demoAnnounceEvent .sparkNotify
    (List.Mem.head _)

/-! ## The config negotiation sub-protocol at module and capability level
(events.ts lines 565-618 and 625-695) -/

/-- events.ts lines 579, 598, 610, 650, 672, 686: the progress state
literal union shared by every status event of the sub-protocol, at both
the module level and the capability level. -/
inductive ConfigStepState where
  | queued : ConfigStepState
  | working : ConfigStepState
  | done : ConfigStepState
  | failed : ConfigStepState
deriving DecidableEq, Repr

/-- events.ts lines 565-568: ModuleConfigurationValidateRequestEvent. -/
structure ModuleConfigurationValidateRequestEvent (C : Type) where
  identity : ModuleIdentity
  current : Option (ModuleConfigEnvelope C)

/-- events.ts lines 633-637: ModuleContributeCapabilityConfigurationValidateRequestEvent. -/
structure ModuleContributeCapabilityConfigurationValidateRequestEvent (C : Type) where
  identity : ModuleIdentity
  capabilityId : String
  current : Option (ModuleConfigEnvelope C)

/-- events.ts lines 570-575: ModuleConfigurationValidateResponseEvent. -/
structure ModuleConfigurationValidateResponseEvent (C : Type) where
  identity : ModuleIdentity
  validation : ModuleConfigValidation
  plan : Option ModuleConfigPlan
  current : Option (ModuleConfigEnvelope C)

/-- events.ts lines 639-645: ModuleContributeCapabilityConfigurationValidateResponseEvent. -/
structure ModuleContributeCapabilityConfigurationValidateResponseEvent (C : Type) where
  identity : ModuleIdentity
  capabilityId : String
  validation : ModuleConfigValidation
  plan : Option ModuleConfigPlan
  current : Option (ModuleConfigEnvelope C)

/-- events.ts lines 577-582: ModuleConfigurationValidateStatusEvent. -/
structure ModuleConfigurationValidateStatusEvent where
  identity : ModuleIdentity
  state : ConfigStepState
  note : Option String
  progress : Option Int

/-- events.ts lines 647-653: ModuleContributeCapabilityConfigurationValidateStatusEvent. -/
structure ModuleContributeCapabilityConfigurationValidateStatusEvent where
  identity : ModuleIdentity
  capabilityId : String
  state : ConfigStepState
  note : Option String
  progress : Option Int

/-- events.ts lines 584-588: ModuleConfigurationPlanRequestEvent. -/
structure ModuleConfigurationPlanRequestEvent (C : Type) where
  identity : ModuleIdentity
  plan : Option ModuleConfigPlan
  current : Option (ModuleConfigEnvelope C)

/-- events.ts lines 655-660: ModuleContributeCapabilityConfigurationPlanRequestEvent. -/
structure ModuleContributeCapabilityConfigurationPlanRequestEvent (C : Type) where
  identity : ModuleIdentity
  capabilityId : String
  plan : Option ModuleConfigPlan
  current : Option (ModuleConfigEnvelope C)

/-- events.ts lines 590-594: ModuleConfigurationPlanResponseEvent. -/
structure ModuleConfigurationPlanResponseEvent (C : Type) where
  identity : ModuleIdentity
  plan : ModuleConfigPlan
  current : Option (ModuleConfigEnvelope C)

/-- events.ts lines 662-667: ModuleContributeCapabilityConfigurationPlanResponseEvent. -/
structure ModuleContributeCapabilityConfigurationPlanResponseEvent (C : Type) where
  identity : ModuleIdentity
  capabilityId : String
  plan : ModuleConfigPlan
  current : Option (ModuleConfigEnvelope C)

/-- events.ts lines 596-601: ModuleConfigurationPlanStatusEvent. -/
structure ModuleConfigurationPlanStatusEvent where
  identity : ModuleIdentity
  state : ConfigStepState
  note : Option String
  progress : Option Int

/-- events.ts lines 669-675: ModuleContributeCapabilityConfigurationPlanStatusEvent. -/
structure ModuleContributeCapabilityConfigurationPlanStatusEvent where
  identity : ModuleIdentity
  capabilityId : String
  state : ConfigStepState
  note : Option String
  progress : Option Int

/-- events.ts lines 677-681: ModuleContributeCapabilityConfigurationCommitEvent. -/
structure ModuleContributeCapabilityConfigurationCommitEvent (C : Type) where
  identity : ModuleIdentity
  capabilityId : String
  config : ModuleConfigEnvelope C

/-- events.ts lines 608-613: ModuleConfigurationCommitStatusEvent. -/
structure ModuleConfigurationCommitStatusEvent where
  identity : ModuleIdentity
  state : ConfigStepState
  note : Option String
  progress : Option Int

/-- events.ts lines 683-689: ModuleContributeCapabilityConfigurationCommitStatusEvent. -/
structure ModuleContributeCapabilityConfigurationCommitStatusEvent where
  identity : ModuleIdentity
  capabilityId : String
  state : ConfigStepState
  note : Option String
  progress : Option Int

/-- events.ts lines 615-618: ModuleConfigurationConfiguredEvent. -/
structure ModuleConfigurationConfiguredEvent (C : Type) where
  identity : ModuleIdentity
  config : ModuleConfigEnvelope C

/-- events.ts lines 691-695: ModuleContributeCapabilityConfigurationConfiguredEvent. -/
structure ModuleContributeCapabilityConfigurationConfiguredEvent (C : Type) where
  identity : ModuleIdentity
  capabilityId : String
  config : ModuleConfigEnvelope C

/-- Forget the capabilityId of a capability-level validateRequest event. -/
def capValidateRequestToModule {C : Type} (e : ModuleContributeCapabilityConfigurationValidateRequestEvent C) :
    ModuleConfigurationValidateRequestEvent C :=
  { identity := e.identity, current := e.current }

/-- Extend a module-level validateRequest event with a capabilityId. -/
def capValidateRequestOfModule {C : Type} (m : ModuleConfigurationValidateRequestEvent C)
    (capabilityId : String) :
    ModuleContributeCapabilityConfigurationValidateRequestEvent C :=
  { identity := m.identity, current := m.current, capabilityId := capabilityId }

/-- Forget the capabilityId of a capability-level validateResponse event. -/
def capValidateResponseToModule {C : Type} (e : ModuleContributeCapabilityConfigurationValidateResponseEvent C) :
    ModuleConfigurationValidateResponseEvent C :=
  { identity := e.identity, validation := e.validation, plan := e.plan, current := e.current }

/-- Extend a module-level validateResponse event with a capabilityId. -/
def capValidateResponseOfModule {C : Type} (m : ModuleConfigurationValidateResponseEvent C)
    (capabilityId : String) :
    ModuleContributeCapabilityConfigurationValidateResponseEvent C :=
  { identity := m.identity, validation := m.validation, plan := m.plan, current := m.current, capabilityId := capabilityId }

/-- Forget the capabilityId of a capability-level validateStatus event. -/
def capValidateStatusToModule (e : ModuleContributeCapabilityConfigurationValidateStatusEvent) :
    ModuleConfigurationValidateStatusEvent :=
  { identity := e.identity, state := e.state, note := e.note, progress := e.progress }

/-- Extend a module-level validateStatus event with a capabilityId. -/
def capValidateStatusOfModule (m : ModuleConfigurationValidateStatusEvent)
    (capabilityId : String) :
    ModuleContributeCapabilityConfigurationValidateStatusEvent :=
  { identity := m.identity, state := m.state, note := m.note, progress := m.progress, capabilityId := capabilityId }

/-- Forget the capabilityId of a capability-level planRequest event. -/
def capPlanRequestToModule {C : Type} (e : ModuleContributeCapabilityConfigurationPlanRequestEvent C) :
    ModuleConfigurationPlanRequestEvent C :=
  { identity := e.identity, plan := e.plan, current := e.current }

/-- Extend a module-level planRequest event with a capabilityId. -/
def capPlanRequestOfModule {C : Type} (m : ModuleConfigurationPlanRequestEvent C)
    (capabilityId : String) :
    ModuleContributeCapabilityConfigurationPlanRequestEvent C :=
  { identity := m.identity, plan := m.plan, current := m.current, capabilityId := capabilityId }

/-- Forget the capabilityId of a capability-level planResponse event. -/
def capPlanResponseToModule {C : Type} (e : ModuleContributeCapabilityConfigurationPlanResponseEvent C) :
    ModuleConfigurationPlanResponseEvent C :=
  { identity := e.identity, plan := e.plan, current := e.current }

/-- Extend a module-level planResponse event with a capabilityId. -/
def capPlanResponseOfModule {C : Type} (m : ModuleConfigurationPlanResponseEvent C)
    (capabilityId : String) :
    ModuleContributeCapabilityConfigurationPlanResponseEvent C :=
  { identity := m.identity, plan := m.plan, current := m.current, capabilityId := capabilityId }

/-- Forget the capabilityId of a capability-level planStatus event. -/
def capPlanStatusToModule (e : ModuleContributeCapabilityConfigurationPlanStatusEvent) :
    ModuleConfigurationPlanStatusEvent :=
  { identity := e.identity, state := e.state, note := e.note, progress := e.progress }

/-- Extend a module-level planStatus event with a capabilityId. -/
def capPlanStatusOfModule (m : ModuleConfigurationPlanStatusEvent)
    (capabilityId : String) :
    ModuleContributeCapabilityConfigurationPlanStatusEvent :=
  { identity := m.identity, state := m.state, note := m.note, progress := m.progress, capabilityId := capabilityId }

/-- Forget the capabilityId of a capability-level commit event. -/
def capCommitToModule {C : Type} (e : ModuleContributeCapabilityConfigurationCommitEvent C) :
    ModuleConfigurationCommitEvent C :=
  { identity := e.identity, config := e.config }

/-- Extend a module-level commit event with a capabilityId. -/
def capCommitOfModule {C : Type} (m : ModuleConfigurationCommitEvent C)
    (capabilityId : String) :
    ModuleContributeCapabilityConfigurationCommitEvent C :=
  { identity := m.identity, config := m.config, capabilityId := capabilityId }

/-- Forget the capabilityId of a capability-level commitStatus event. -/
def capCommitStatusToModule (e : ModuleContributeCapabilityConfigurationCommitStatusEvent) :
    ModuleConfigurationCommitStatusEvent :=
  { identity := e.identity, state := e.state, note := e.note, progress := e.progress }

/-- Extend a module-level commitStatus event with a capabilityId. -/
def capCommitStatusOfModule (m : ModuleConfigurationCommitStatusEvent)
    (capabilityId : String) :
    ModuleContributeCapabilityConfigurationCommitStatusEvent :=
  { identity := m.identity, state := m.state, note := m.note, progress := m.progress, capabilityId := capabilityId }

/-- Forget the capabilityId of a capability-level configured event. -/
def capConfiguredToModule {C : Type} (e : ModuleContributeCapabilityConfigurationConfiguredEvent C) :
    ModuleConfigurationConfiguredEvent C :=
  { identity := e.identity, config := e.config }

/-- Extend a module-level configured event with a capabilityId. -/
def capConfiguredOfModule {C : Type} (m : ModuleConfigurationConfiguredEvent C)
    (capabilityId : String) :
    ModuleContributeCapabilityConfigurationConfiguredEvent C :=
  { identity := m.identity, config := m.config, capabilityId := capabilityId }

/-- C5: each capability-level configuration event payload is exactly the
module-level payload extended with one required capabilityId field — the
extension and forgetful maps are mutually inverse and the added field is
the given capabilityId — and the status payloads at both levels share the
one state set queued, working, done, failed. -/
theorem configuration_subprotocol_refinement :
    ((∀ (C : Type) (e : ModuleContributeCapabilityConfigurationValidateRequestEvent C),
        capValidateRequestOfModule (capValidateRequestToModule e) e.capabilityId = e)
    ∧ (∀ (C : Type) (m : ModuleConfigurationValidateRequestEvent C) (cid : String),
        capValidateRequestToModule (capValidateRequestOfModule m cid) = m
        ∧ (capValidateRequestOfModule m cid).capabilityId = cid)
    ∧ (∀ (C : Type) (e : ModuleContributeCapabilityConfigurationValidateResponseEvent C),
        capValidateResponseOfModule (capValidateResponseToModule e) e.capabilityId = e)
    ∧ (∀ (C : Type) (m : ModuleConfigurationValidateResponseEvent C) (cid : String),
        capValidateResponseToModule (capValidateResponseOfModule m cid) = m
        ∧ (capValidateResponseOfModule m cid).capabilityId = cid)
    ∧ (∀ e : ModuleContributeCapabilityConfigurationValidateStatusEvent,
        capValidateStatusOfModule (capValidateStatusToModule e) e.capabilityId = e)
    ∧ (∀ (m : ModuleConfigurationValidateStatusEvent) (cid : String),
        capValidateStatusToModule (capValidateStatusOfModule m cid) = m
        ∧ (capValidateStatusOfModule m cid).capabilityId = cid)
    ∧ (∀ (C : Type) (e : ModuleContributeCapabilityConfigurationPlanRequestEvent C),
        capPlanRequestOfModule (capPlanRequestToModule e) e.capabilityId = e)
    ∧ (∀ (C : Type) (m : ModuleConfigurationPlanRequestEvent C) (cid : String),
        capPlanRequestToModule (capPlanRequestOfModule m cid) = m
        ∧ (capPlanRequestOfModule m cid).capabilityId = cid)
    ∧ (∀ (C : Type) (e : ModuleContributeCapabilityConfigurationPlanResponseEvent C),
        capPlanResponseOfModule (capPlanResponseToModule e) e.capabilityId = e)
    ∧ (∀ (C : Type) (m : ModuleConfigurationPlanResponseEvent C) (cid : String),
        capPlanResponseToModule (capPlanResponseOfModule m cid) = m
        ∧ (capPlanResponseOfModule m cid).capabilityId = cid)
    ∧ (∀ e : ModuleContributeCapabilityConfigurationPlanStatusEvent,
        capPlanStatusOfModule (capPlanStatusToModule e) e.capabilityId = e)
    ∧ (∀ (m : ModuleConfigurationPlanStatusEvent) (cid : String),
        capPlanStatusToModule (capPlanStatusOfModule m cid) = m
        ∧ (capPlanStatusOfModule m cid).capabilityId = cid)
    ∧ (∀ (C : Type) (e : ModuleContributeCapabilityConfigurationCommitEvent C),
        capCommitOfModule (capCommitToModule e) e.capabilityId = e)
    ∧ (∀ (C : Type) (m : ModuleConfigurationCommitEvent C) (cid : String),
        capCommitToModule (capCommitOfModule m cid) = m
        ∧ (capCommitOfModule m cid).capabilityId = cid)
    ∧ (∀ e : ModuleContributeCapabilityConfigurationCommitStatusEvent,
        capCommitStatusOfModule (capCommitStatusToModule e) e.capabilityId = e)
    ∧ (∀ (m : ModuleConfigurationCommitStatusEvent) (cid : String),
        capCommitStatusToModule (capCommitStatusOfModule m cid) = m
        ∧ (capCommitStatusOfModule m cid).capabilityId = cid)
    ∧ (∀ (C : Type) (e : ModuleContributeCapabilityConfigurationConfiguredEvent C),
        capConfiguredOfModule (capConfiguredToModule e) e.capabilityId = e)
    ∧ (∀ (C : Type) (m : ModuleConfigurationConfiguredEvent C) (cid : String),
        capConfiguredToModule (capConfiguredOfModule m cid) = m
        ∧ (capConfiguredOfModule m cid).capabilityId = cid))
    ∧ (∀ s : ConfigStepState,
        s = .queued ∨ s = .working ∨ s = .done ∨ s = .failed) := by
  refine ⟨⟨fun _ _ => rfl, fun _ _ _ => ⟨rfl, rfl⟩,
    fun _ _ => rfl, fun _ _ _ => ⟨rfl, rfl⟩,
    fun _ => rfl, fun _ _ => ⟨rfl, rfl⟩,
    fun _ _ => rfl, fun _ _ _ => ⟨rfl, rfl⟩,
    fun _ _ => rfl, fun _ _ _ => ⟨rfl, rfl⟩,
    fun _ => rfl, fun _ _ => ⟨rfl, rfl⟩,
    fun _ _ => rfl, fun _ _ _ => ⟨rfl, rfl⟩,
    fun _ => rfl, fun _ _ => ⟨rfl, rfl⟩,
    fun _ _ => rfl, fun _ _ _ => ⟨rfl, rfl⟩⟩, ?_⟩
  intro s
  cases s
  · exact Or.inl rfl
  · exact Or.inr (Or.inl rfl)
  · exact Or.inr (Or.inr (Or.inl rfl))
  · exact Or.inr (Or.inr (Or.inr rfl))

end PluginProtocol
